import Mathlib

/-!
Shallow embedding of the IVF-PQ index structure of
`cpp/include/raft/neighbors/ivf_pq_types.hpp` and of the aligned device
matrix-view factory of `cpp/include/raft/core/device_mdspan.hpp`.

Machine integers (`uint32_t`) are modelled as `Nat` with an explicit
`% U32` at every operation where the C++ code performs uint32 arithmetic
that can wrap.  Device buffers are modelled by their extents; the
`IdxT`-valued one-dimensional buffers (`indices`, `list_offsets`) also
carry their contents, because one claim is about the value stored at the
end of `list_offsets`.  Freshly allocated device memory is uninitialized,
so every allocating operation receives, as an explicit argument
(`uninit`), the arbitrary contents that the allocator happens to leave in
the new buffer, and `allocate` additionally receives one success flag per
underlying allocation call (the allocator is an external collaborator
that may fail; on failure the C++ call raises before the corresponding
member is assigned).
-/

namespace raft

/-- The modulus 2^32 of `uint32_t` arithmetic. -/
def U32 : Nat := 4294967296

/-- Modelled from the spec: `round_up(v, m)` rounds `v` up to the nearest
multiple of `m` (the helper `raft::round_up_safe` lives in
`raft/util/integer_utils.hpp`, which is not under `src/`). -/
def round_up_safe (n m : Nat) : Nat := (n + m - 1) / m * m

/-- Modelled from the spec: rounding down to the nearest multiple of `m`
(the helper `raft::round_down_safe` lives in
`raft/util/integer_utils.hpp`, which is not under `src/`). -/
def round_down_safe (n m : Nat) : Nat := n / m * m

/-- Modelled from the spec: `ceil_div(a, b)`, ceiling division (the helper
`raft::div_rounding_up_unsafe` lives in `raft/util/integer_utils.hpp`,
which is not under `src/`).  On `Nat` the idiom `(a + b - 1) / b` is exact
ceiling division for `b > 0`. -/
def div_rounding_up (a b : Nat) : Nat := (a + b - 1) / b

/-- The `while ((r << 1) <= dim) r = r << 1;` loop at the end of
`index::calculate_pq_dim`, written with explicit fuel so that it is
structurally recursive.  The loop doubles `r` starting from 1, so for any
`dim < 2^32` (every `uint32_t`) it runs at most 31 times and fuel 32 is
never exhausted; moreover the loop is only ever entered with `dim < 32`,
where far less fuel suffices. -/
def pow2_loop : Nat → Nat → Nat → Nat
  | 0, _, r => r
  | fuel + 1, dim, r => if 2 * r ≤ dim then pow2_loop fuel dim (2 * r) else r

/-- Source function `index::calculate_pq_dim` (ivf_pq_types.hpp, lines 418-431). -/
def calculate_pq_dim (dim : Nat) : Nat :=
  let d := if 128 ≤ dim then dim / 2 else dim
  let r := round_down_safe d 32
  if 0 < r then r else pow2_loop 32 d 1

/-- The largest power of two that is at most `d` (meaningful for `d ≥ 1`),
written from the wording of the spec. -/
def largest_pow2_le (d : Nat) : Nat := 2 ^ Nat.log2 d

/-- Transcription of the spec sentence describing `calculate_pq_dim`:
if `dim ≥ 128`, halve it; round the result down to the nearest multiple
of 32; if that yields 0, instead take the largest power of two at most
the (halved, if applicable) `dim`. -/
def calculate_pq_dim_spec (dim : Nat) : Nat :=
  let d := if 128 ≤ dim then dim / 2 else dim
  let r := d / 32 * 32
  if r = 0 then largest_pow2_le d else r

/-- Source enumeration `raft::neighbors::ivf_pq::codebook_gen` (ivf_pq_types.hpp, lines 31-34). -/
inductive codebook_gen where
  | PER_SUBSPACE : codebook_gen
  | PER_CLUSTER : codebook_gen
deriving DecidableEq

/-- The underlying integral value of a `codebook_gen` (`PER_SUBSPACE = 0`,
`PER_CLUSTER = 1`). -/
def codebook_gen.toNat : codebook_gen → Nat
  | .PER_SUBSPACE => 0
  | .PER_CLUSTER => 1

/-- The errors the modelled fragment can raise: the two `RAFT_EXPECTS` of
`index::check_consistency` (each carrying the offending numeric values),
the defensive `RAFT_FAIL` of `index::make_pq_centers_extents`, a failure
of the external device allocator, and the alignment precondition of
`make_device_aligned_matrix_view`. -/
inductive raftError where
  | pqBitsRange : Nat → raftError
  | pqBitsDimMultiple : Nat → Nat → raftError
  | unreachableCodebookMode : raftError
  | allocationFailure : raftError
  | misalignedPointer : Nat → raftError
deriving DecidableEq

/-- A one-dimensional `device_mdarray` over `IdxT`: extent plus contents
(contents of a fresh buffer are whatever uninitialized device memory
holds). -/
structure mdarray1 where
  ext0 : Nat
  data : Nat → Nat

/-- A two-dimensional `device_mdarray`, modelled by its extents (the index
structure never reads or writes the element contents of these buffers). -/
structure mdarray2 where
  ext0 : Nat
  ext1 : Nat
deriving DecidableEq

/-- A three-dimensional `device_mdarray`, modelled by its extents. -/
structure mdarray3 where
  ext0 : Nat
  ext1 : Nat
  ext2 : Nat
deriving DecidableEq

/-- Source function `index::make_pq_centers_extents` (ivf_pq_types.hpp, lines 407-416),
taken over the underlying integral value of the codebook mode so that the
defensive `default: RAFT_FAIL` branch is representable. -/
def make_pq_centers_extents_raw (mode dpq pbs pql nl : Nat) :
    Except raftError mdarray3 :=
  if mode = 0 then Except.ok { ext0 := dpq, ext1 := pbs, ext2 := pql }
  else if mode = 1 then Except.ok { ext0 := nl, ext1 := pbs, ext2 := pql }
  else Except.error raftError.unreachableCodebookMode

/-- Source function `index::check_consistency` (ivf_pq_types.hpp, lines 394-405): the two
`RAFT_EXPECTS` checks, in source order, over the uint32 product
`pq_bits() * pq_dim()`. -/
def check_consistency (b dq : Nat) : Except raftError Unit :=
  if 4 ≤ b ∧ b ≤ 8 then
    if b * dq % U32 % 8 = 0 then Except.ok ()
    else Except.error (raftError.pqBitsDimMultiple b dq)
  else Except.error (raftError.pqBitsRange b)

/-- Source structure `raft::neighbors::ivf_pq::index` (ivf_pq_types.hpp, lines 167-432):
the scalar fields and the seven owned device arrays.  The distance metric
is an enum the structure never inspects, modelled as a bare `Nat`. -/
structure index where
  metric : Nat
  codebook_kind : codebook_gen
  n_lists : Nat
  dim : Nat
  pq_bits : Nat
  pq_dim : Nat
  n_nonempty_lists : Nat
  pq_centers : mdarray3
  pq_dataset : mdarray2
  indices : mdarray1
  rotation_matrix : mdarray2
  list_offsets : mdarray1
  centers : mdarray2
  centers_rot : mdarray2

/-- Getter `index::size()`: the extent of `indices_`. -/
def index.size (i : index) : Nat := i.indices.ext0

/-- Getter `index::dim_ext()`: `round_up_safe(dim() + 1, 8u)`, with the uint32
increment made explicit. -/
def index.dim_ext (i : index) : Nat := round_up_safe ((i.dim + 1) % U32) 8

/-- Getter `index::pq_len()`: `div_rounding_up_unsafe(dim(), pq_dim())`. -/
def index.pq_len (i : index) : Nat := div_rounding_up i.dim i.pq_dim

/-- Getter `index::rot_dim()`: `pq_len() * pq_dim()`, a uint32 product. -/
def index.rot_dim (i : index) : Nat := i.pq_len * i.pq_dim % U32

/-- Getter `index::pq_book_size()`: `1 << pq_bits()` (well defined as `2 ^ pq_bits`
for the checked range `pq_bits ≤ 8`). -/
def index.pq_book_size (i : index) : Nat := 2 ^ i.pq_bits

/-- The constructor `index::index` (ivf_pq_types.hpp, lines 232-262): the
member-initializer list substitutes `pq_dim` when the argument is 0 and
sizes the seven arrays, then the body runs `check_consistency()`.  The
argument `u` is the uninitialized contents of the freshly allocated
`IdxT` buffers. -/
def index.make (m : Nat) (cb : codebook_gen) (nl dim b d nn : Nat)
    (u : Nat → Nat) : Except raftError index :=
  let dpq : Nat := if d = 0 then calculate_pq_dim dim else d
  let pql : Nat := div_rounding_up dim dpq
  let rot : Nat := pql * dpq % U32
  match make_pq_centers_extents_raw cb.toNat dpq (2 ^ b) pql nl with
  | Except.error e => Except.error e
  | Except.ok pqc =>
    let idx : index :=
      { metric := m, codebook_kind := cb, n_lists := nl, dim := dim,
        pq_bits := b, pq_dim := dpq, n_nonempty_lists := nn,
        pq_centers := pqc,
        pq_dataset := { ext0 := 0, ext1 := dpq * b % U32 / 8 },
        indices := { ext0 := 0, data := u },
        rotation_matrix := { ext0 := rot, ext1 := dim },
        list_offsets := { ext0 := (nl + 1) % U32, data := u },
        centers := { ext0 := nl, ext1 := round_up_safe ((dim + 1) % U32) 8 },
        centers_rot := { ext0 := nl, ext1 := rot } }
    match check_consistency idx.pq_bits idx.pq_dim with
    | Except.error e => Except.error e
    | Except.ok _ => Except.ok idx

/-- The index value a successful construction produces: the
member-initializer list of `index::index` written out as one record. -/
def index.fresh (m : Nat) (cb : codebook_gen) (nl dim b d nn : Nat)
    (u : Nat → Nat) : index :=
  let dpq : Nat := if d = 0 then calculate_pq_dim dim else d
  let pql : Nat := div_rounding_up dim dpq
  let rot : Nat := pql * dpq % U32
  { metric := m, codebook_kind := cb, n_lists := nl, dim := dim,
    pq_bits := b, pq_dim := dpq, n_nonempty_lists := nn,
    pq_centers :=
      match cb with
      | codebook_gen.PER_SUBSPACE => { ext0 := dpq, ext1 := 2 ^ b, ext2 := pql }
      | codebook_gen.PER_CLUSTER => { ext0 := nl, ext1 := 2 ^ b, ext2 := pql },
    pq_dataset := { ext0 := 0, ext1 := dpq * b % U32 / 8 },
    indices := { ext0 := 0, data := u },
    rotation_matrix := { ext0 := rot, ext1 := dim },
    list_offsets := { ext0 := (nl + 1) % U32, data := u },
    centers := { ext0 := nl, ext1 := round_up_safe ((dim + 1) % U32) 8 },
    centers_rot := { ext0 := nl, ext1 := rot } }

/-- The outcome of `index::allocate`: the error raised (if any) together
with the state the index is left in (on an exception the object survives
with whatever member assignments had already completed). -/
structure allocResult where
  err : Option raftError
  state : index

/-- Source function `index::allocate` (ivf_pq_types.hpp, lines 280-290): replaces
`pq_dataset_` (keeping its second extent) and then `indices_` with fresh
uninitialized buffers of the requested length, then re-runs
`check_consistency()`.  `ok1`/`ok2` are the success of the two underlying
device allocations: a failed `make_device_mdarray` raises before the
member assignment happens. -/
def index.allocate (i : index) (index_size : Nat) (ok1 ok2 : Bool)
    (u : Nat → Nat) : allocResult :=
  if ok1 then
    let i1 : index :=
      { i with pq_dataset := { ext0 := index_size, ext1 := i.pq_dataset.ext1 } }
    if ok2 then
      let i2 : index := { i1 with indices := { ext0 := index_size, data := u } }
      match check_consistency i2.pq_bits i2.pq_dim with
      | Except.error e => { err := some e, state := i2 }
      | Except.ok _ => { err := none, state := i2 }
    else { err := some raftError.allocationFailure, state := i1 }
  else { err := some raftError.allocationFailure, state := i }

/-- The structural well-formedness every reachable index state satisfies:
the two `check_consistency` conditions, a positive `pq_dim`, and the
extent coupling of the dataset-sized arrays as established by the
constructor. -/
def index.wf (i : index) : Prop :=
  4 ≤ i.pq_bits ∧ i.pq_bits ≤ 8 ∧ i.pq_bits * i.pq_dim % 8 = 0 ∧
  1 ≤ i.pq_dim ∧
  i.indices.ext0 = i.pq_dataset.ext0 ∧
  i.pq_dataset.ext1 = i.pq_dim * i.pq_bits % U32 / 8 ∧
  i.list_offsets.ext0 = (i.n_lists + 1) % U32

instance (i : index) : Decidable i.wf := by
  unfold index.wf
  exact inferInstance

/-- Modelled from the spec: the fixed byte alignment of the padded layout
(`detail::alignment::value`, declared outside `src/`; the spec fixes it
at 128). -/
def ALIGNMENT : Nat := 128

/-- Modelled from the spec: `alignTo(v, m)` rounds an address up to the
next multiple of `m` (the helper is declared outside `src/`). -/
def alignTo (v m : Nat) : Nat := (v + m - 1) / m * m

/-- A 128-byte-aligned padded device matrix view: base pointer (an
address) and the two requested extents. -/
structure device_aligned_matrix_view where
  ptr : Nat
  ext0 : Nat
  ext1 : Nat
deriving DecidableEq

/-- Source function `raft::make_device_aligned_matrix_view` (device_mdspan.hpp, lines
193-209): the `assert(ptr == alignTo(ptr, detail::alignment::value))`
precondition is checked before the view is formed and before any element
of the underlying memory is touched. -/
def make_device_aligned_matrix_view (ptr n_rows n_cols : Nat) :
    Except raftError device_aligned_matrix_view :=
  if ptr = alignTo ptr ALIGNMENT then
    Except.ok { ptr := ptr, ext0 := n_rows, ext1 := n_cols }
  else Except.error (raftError.misalignedPointer ptr)

/-! Concrete instances used by the witnesses and counterexamples. -/

/-- Uninitialized device memory that happens to be all zeros. -/
def u0 : Nat → Nat := fun _ => 0

/-- Uninitialized device memory that happens to be all ones. -/
def u1 : Nat → Nat := fun _ => 1

/-- The index built by `index.make 0 .PER_SUBSPACE 8 128 8 64 0 u0`. -/
def i0 : index :=
  { metric := 0, codebook_kind := codebook_gen.PER_SUBSPACE, n_lists := 8,
    dim := 128, pq_bits := 8, pq_dim := 64, n_nonempty_lists := 0,
    pq_centers := { ext0 := 64, ext1 := 256, ext2 := 2 },
    pq_dataset := { ext0 := 0, ext1 := 64 },
    indices := { ext0 := 0, data := u0 },
    rotation_matrix := { ext0 := 128, ext1 := 128 },
    list_offsets := { ext0 := 9, data := u0 },
    centers := { ext0 := 8, ext1 := 136 },
    centers_rot := { ext0 := 8, ext1 := 128 } }

/-- The index built by `index.make 0 .PER_SUBSPACE 8 128 8 64 0 u1`:
like `i0` but the uninitialized `IdxT` buffers happen to hold ones. -/
def i1 : index :=
  { metric := 0, codebook_kind := codebook_gen.PER_SUBSPACE, n_lists := 8,
    dim := 128, pq_bits := 8, pq_dim := 64, n_nonempty_lists := 0,
    pq_centers := { ext0 := 64, ext1 := 256, ext2 := 2 },
    pq_dataset := { ext0 := 0, ext1 := 64 },
    indices := { ext0 := 0, data := u1 },
    rotation_matrix := { ext0 := 128, ext1 := 128 },
    list_offsets := { ext0 := 9, data := u1 },
    centers := { ext0 := 8, ext1 := 136 },
    centers_rot := { ext0 := 8, ext1 := 128 } }

/-- The index built by `index.make 0 .PER_SUBSPACE 1 4294967295 8 4294967294 0 u0`:
an extreme but accepted construction in which the uint32 product
`pq_len() * pq_dim()` wraps. -/
def iBig : index :=
  { metric := 0, codebook_kind := codebook_gen.PER_SUBSPACE, n_lists := 1,
    dim := 4294967295, pq_bits := 8, pq_dim := 4294967294, n_nonempty_lists := 0,
    pq_centers := { ext0 := 4294967294, ext1 := 256, ext2 := 2 },
    pq_dataset := { ext0 := 0, ext1 := 536870910 },
    indices := { ext0 := 0, data := u0 },
    rotation_matrix := { ext0 := 4294967292, ext1 := 4294967295 },
    list_offsets := { ext0 := 2, data := u0 },
    centers := { ext0 := 1, ext1 := 0 },
    centers_rot := { ext0 := 1, ext1 := 4294967292 } }

/-- The index built by `index.make 0 .PER_SUBSPACE 8 0 8 0 0 u0`: the
degenerate `dim = 0` construction with auto-derived `pq_dim`. -/
def iZero : index :=
  { metric := 0, codebook_kind := codebook_gen.PER_SUBSPACE, n_lists := 8,
    dim := 0, pq_bits := 8, pq_dim := 1, n_nonempty_lists := 0,
    pq_centers := { ext0 := 1, ext1 := 256, ext2 := 0 },
    pq_dataset := { ext0 := 0, ext1 := 1 },
    indices := { ext0 := 0, data := u0 },
    rotation_matrix := { ext0 := 0, ext1 := 0 },
    list_offsets := { ext0 := 9, data := u0 },
    centers := { ext0 := 8, ext1 := 8 },
    centers_rot := { ext0 := 8, ext1 := 0 } }

/-! Helper lemmas about the power-of-two fallback loop. -/

lemma pow2_loop_ge (fuel d r : Nat) : r ≤ pow2_loop fuel d r := by
  induction fuel generalizing r with
  | zero => exact Nat.le_refl r
  | succ f ih =>
    simp only [pow2_loop]
    by_cases hc : 2 * r ≤ d
    · rw [if_pos hc]
      exact Nat.le_trans (by omega) (ih (2 * r))
    · rw [if_neg hc]

lemma pow2_loop_le (fuel d : Nat) : ∀ r, 1 ≤ r → r ≤ d → pow2_loop fuel d r ≤ d := by
  induction fuel with
  | zero => intro r _ h; exact h
  | succ f ih =>
    intro r h0 h
    simp only [pow2_loop]
    by_cases hc : 2 * r ≤ d
    · rw [if_pos hc]; exact ih (2 * r) (by omega) hc
    · rw [if_neg hc]; exact h

lemma pow2_loop_pow2 (fuel d : Nat) : ∀ k, ∃ m, pow2_loop fuel d (2 ^ k) = 2 ^ m := by
  induction fuel with
  | zero => intro k; exact ⟨k, rfl⟩
  | succ f ih =>
    intro k
    simp only [pow2_loop]
    by_cases hc : 2 * 2 ^ k ≤ d
    · rw [if_pos hc, show 2 * 2 ^ k = 2 ^ (k + 1) by rw [Nat.pow_succ, Nat.mul_comm]]
      exact ih (k + 1)
    · rw [if_neg hc]; exact ⟨k, rfl⟩

lemma pow2_loop_gt (fuel d : Nat) : ∀ r, d < 2 ^ fuel * r → d < 2 * pow2_loop fuel d r := by
  induction fuel with
  | zero =>
    intro r h
    simp only [Nat.pow_zero, Nat.one_mul] at h
    simp only [pow2_loop]
    omega
  | succ f ih =>
    intro r h
    simp only [pow2_loop]
    by_cases hc : 2 * r ≤ d
    · rw [if_pos hc]
      refine ih (2 * r) ?_
      rw [Nat.pow_succ, Nat.mul_assoc, Nat.mul_comm 2 r] at h
      rw [Nat.mul_comm 2 r]
      exact h
    · rw [if_neg hc]; omega

/-- For `1 ≤ d`, the loop started at 1 computes the largest power of two
at most `d`, provided the fuel bounds `d` from above. -/
lemma pow2_loop_eq_log2 (d : Nat) (h1 : 1 ≤ d) (h2 : d < 2 ^ 32) :
    pow2_loop 32 d 1 = 2 ^ Nat.log2 d := by
  obtain ⟨m, hm⟩ := pow2_loop_pow2 32 d 0
  rw [Nat.pow_zero] at hm
  have hle : 2 ^ m ≤ d := by
    rw [← hm]; exact pow2_loop_le 32 d 1 (Nat.le_refl 1) h1
  have hgt : d < 2 ^ (m + 1) := by
    have := pow2_loop_gt 32 d 1 (by simpa using h2)
    rw [hm] at this
    rw [Nat.pow_succ, Nat.mul_comm]
    exact this
  rw [hm, Nat.log2_eq_log_two, Nat.log_eq_of_pow_le_of_lt_pow hle hgt]

lemma calculate_pq_dim_pos (dim : Nat) : 1 ≤ calculate_pq_dim dim := by
  unfold calculate_pq_dim
  by_cases hr : 0 < round_down_safe (if 128 ≤ dim then dim / 2 else dim) 32
  · rw [if_pos hr]; exact hr
  · rw [if_neg hr]; exact pow2_loop_ge 32 _ 1

lemma calculate_pq_dim_shape (dim : Nat) :
    (0 < calculate_pq_dim dim ∧ 32 ∣ calculate_pq_dim dim) ∨
      ∃ k, calculate_pq_dim dim = 2 ^ k := by
  unfold calculate_pq_dim round_down_safe
  by_cases hr : 0 < (if 128 ≤ dim then dim / 2 else dim) / 32 * 32
  · rw [if_pos hr]
    exact Or.inl ⟨hr, Dvd.intro_left _ rfl⟩
  · rw [if_neg hr]
    refine Or.inr ?_
    have := pow2_loop_pow2 32 (if 128 ≤ dim then dim / 2 else dim) 0
    simpa using this

/-! Helper lemmas about `check_consistency` and construction. -/

lemma dvd_8_U32 : (8 : Nat) ∣ U32 := ⟨536870912, rfl⟩

lemma mod_U32_mod_8 (x : Nat) : x % U32 % 8 = x % 8 :=
  Nat.mod_mod_of_dvd x dvd_8_U32

lemma check_ok_iff (b dq : Nat) :
    check_consistency b dq = Except.ok () ↔ (4 ≤ b ∧ b ≤ 8 ∧ b * dq % 8 = 0) := by
  unfold check_consistency
  constructor
  · intro h
    split_ifs at h with hA hB
    exact ⟨hA.1, hA.2, by rw [← mod_U32_mod_8]; exact hB⟩
  · rintro ⟨h1, h2, h3⟩
    rw [if_pos ⟨h1, h2⟩, if_pos (by rw [mod_U32_mod_8]; exact h3)]

lemma check_error_range (b dq : Nat) (h : ¬(4 ≤ b ∧ b ≤ 8)) :
    check_consistency b dq = Except.error (raftError.pqBitsRange b) := by
  unfold check_consistency
  rw [if_neg h]

lemma check_error_mult (b dq : Nat) (h1 : 4 ≤ b ∧ b ≤ 8) (h2 : b * dq % 8 ≠ 0) :
    check_consistency b dq = Except.error (raftError.pqBitsDimMultiple b dq) := by
  unfold check_consistency
  rw [if_pos h1, if_neg (by rw [mod_U32_mod_8]; exact h2)]

lemma make_ok (m : Nat) (cb : codebook_gen) (nl dim b d nn : Nat) (u : Nat → Nat)
    (h1 : 4 ≤ b) (h2 : b ≤ 8)
    (h3 : b * (if d = 0 then calculate_pq_dim dim else d) % 8 = 0) :
    index.make m cb nl dim b d nn u = Except.ok (index.fresh m cb nl dim b d nn u) := by
  have hc : check_consistency b (if d = 0 then calculate_pq_dim dim else d) =
      Except.ok () := (check_ok_iff _ _).mpr ⟨h1, h2, h3⟩
  cases cb <;>
    simp [index.make, index.fresh, codebook_gen.toNat, make_pq_centers_extents_raw, hc]

lemma make_error_range (m : Nat) (cb : codebook_gen) (nl dim b d nn : Nat)
    (u : Nat → Nat) (h : ¬(4 ≤ b ∧ b ≤ 8)) :
    index.make m cb nl dim b d nn u = Except.error (raftError.pqBitsRange b) := by
  have hc := check_error_range b (if d = 0 then calculate_pq_dim dim else d) h
  cases cb <;>
    simp [index.make, codebook_gen.toNat, make_pq_centers_extents_raw, hc]

lemma make_error_mult (m : Nat) (cb : codebook_gen) (nl dim b d nn : Nat)
    (u : Nat → Nat) (h1 : 4 ≤ b ∧ b ≤ 8)
    (h2 : b * (if d = 0 then calculate_pq_dim dim else d) % 8 ≠ 0) :
    index.make m cb nl dim b d nn u =
      Except.error (raftError.pqBitsDimMultiple b (if d = 0 then calculate_pq_dim dim else d)) := by
  have hc := check_error_mult b (if d = 0 then calculate_pq_dim dim else d) h1 h2
  cases cb <;>
    simp [index.make, codebook_gen.toNat, make_pq_centers_extents_raw, hc]

lemma make_ok_elim {m : Nat} {cb : codebook_gen} {nl dim b d nn : Nat}
    {u : Nat → Nat} {i : index}
    (h : index.make m cb nl dim b d nn u = Except.ok i) :
    4 ≤ b ∧ b ≤ 8 ∧ b * (if d = 0 then calculate_pq_dim dim else d) % 8 = 0 ∧
      i = index.fresh m cb nl dim b d nn u := by
  by_cases hA : 4 ≤ b ∧ b ≤ 8
  · by_cases hB : b * (if d = 0 then calculate_pq_dim dim else d) % 8 = 0
    · rw [make_ok m cb nl dim b d nn u hA.1 hA.2 hB] at h
      injection h with h
      exact ⟨hA.1, hA.2, hB, h.symm⟩
    · rw [make_error_mult m cb nl dim b d nn u hA hB] at h
      cases h
  · rw [make_error_range m cb nl dim b d nn u hA] at h
    cases h

lemma fresh_pq_dim (m : Nat) (cb : codebook_gen) (nl dim b d nn : Nat) (u : Nat → Nat) :
    (index.fresh m cb nl dim b d nn u).pq_dim =
      (if d = 0 then calculate_pq_dim dim else d) := rfl

lemma make_wf {m : Nat} {cb : codebook_gen} {nl dim b d nn : Nat}
    {u : Nat → Nat} {i : index}
    (h : index.make m cb nl dim b d nn u = Except.ok i) : i.wf := by
  obtain ⟨h1, h2, h3, hi⟩ := make_ok_elim h
  subst hi
  refine ⟨h1, h2, h3, ?_, rfl, rfl, rfl⟩
  rw [fresh_pq_dim]
  by_cases hd : d = 0
  · rw [if_pos hd]; exact calculate_pq_dim_pos dim
  · rw [if_neg hd]; omega

/-! Helper lemmas about `allocate`. -/

lemma allocate_ok1_false (i : index) (n : Nat) (b2 : Bool) (u : Nat → Nat) :
    i.allocate n false b2 u = { err := some raftError.allocationFailure, state := i } := rfl

lemma allocate_ok2_false (i : index) (n : Nat) (u : Nat → Nat) :
    i.allocate n true false u =
      { err := some raftError.allocationFailure,
        state := { i with pq_dataset := { ext0 := n, ext1 := i.pq_dataset.ext1 } } } := rfl

lemma allocate_success (i : index) (n : Nat) (u : Nat → Nat)
    (h1 : 4 ≤ i.pq_bits) (h2 : i.pq_bits ≤ 8) (h3 : i.pq_bits * i.pq_dim % 8 = 0) :
    i.allocate n true true u =
      { err := none,
        state := { i with pq_dataset := { ext0 := n, ext1 := i.pq_dataset.ext1 },
                          indices := { ext0 := n, data := u } } } := by
  unfold index.allocate
  have hc : check_consistency i.pq_bits i.pq_dim = Except.ok () :=
    (check_ok_iff _ _).mpr ⟨h1, h2, h3⟩
  simp [hc]

/-- Ceiling division times the divisor bounds the dividend from below. -/
lemma le_ceil_mul (a b : Nat) (hb : 0 < b) : a ≤ div_rounding_up a b * b := by
  unfold div_rounding_up
  rw [Nat.mul_comm]
  have hlt : (a + b - 1) % b < b := Nat.mod_lt _ hb
  have hdm : b * ((a + b - 1) / b) + (a + b - 1) % b = a + b - 1 :=
    Nat.div_add_mod (a + b - 1) b
  omega

lemma make_i0 : index.make 0 codebook_gen.PER_SUBSPACE 8 128 8 64 0 u0 = Except.ok i0 := rfl

lemma i0_wf : i0.wf := by decide

/-! The claims. -/

/-- Claim C1: `calculate_pq_dim(dim)` is a deterministic pure function
computing: if `dim ≥ 128` halve `dim`; round the (possibly halved) value
down to the nearest multiple of 32; if that rounding yields 0, return
instead the largest power of two at most the (possibly halved) `dim`; in
particular `calculate_pq_dim 512 = 256`, `calculate_pq_dim 100 = 96` and
`calculate_pq_dim 10 = 8`. -/
theorem calculate_pq_dim_follows_spec (dim : Nat) (h : 1 ≤ dim) :
    calculate_pq_dim dim = calculate_pq_dim_spec dim ∧
    calculate_pq_dim 512 = 256 ∧ calculate_pq_dim 100 = 96 ∧
    calculate_pq_dim 10 = 8 := by
  refine ⟨?_, by decide, by decide, by decide⟩
  simp only [calculate_pq_dim, calculate_pq_dim_spec, round_down_safe, largest_pow2_le]
  have hd1 : 1 ≤ (if 128 ≤ dim then dim / 2 else dim) := by
    by_cases hc : 128 ≤ dim
    · rw [if_pos hc]; omega
    · rw [if_neg hc]; omega
  by_cases hr : (if 128 ≤ dim then dim / 2 else dim) / 32 * 32 = 0
  · rw [hr]
    have hlt : (if 128 ≤ dim then dim / 2 else dim) < 32 := by omega
    simp only [if_neg (by omega : ¬ (0:Nat) < 0), if_pos rfl]
    exact pow2_loop_eq_log2 _ hd1 (by omega)
  · rw [if_pos (by omega), if_neg hr]

/-- Witness for C1: the spec description and the three sample values checked
at the concrete input 10. -/
theorem calculate_pq_dim_follows_spec_witness :
    calculate_pq_dim 10 = calculate_pq_dim_spec 10 ∧
    calculate_pq_dim 512 = 256 ∧ calculate_pq_dim 100 = 96 ∧
    calculate_pq_dim 10 = 8 :=
  calculate_pq_dim_follows_spec 10 (by decide)

/-- Claim C2: construction first substitutes `pq_dim = calculate_pq_dim dim`
when the supplied `pq_dim` is 0, then validates `4 ≤ pq_bits ≤ 8` and
`(pq_bits * pq_dim) % 8 = 0`, failing with a structural-validation error
that carries the offending values exactly when either condition fails; in
particular `pq_bits = 5, pq_dim = 3` fails and `pq_bits = 8, pq_dim = 64`
succeeds. -/
theorem construction_validation (m : Nat) (cb : codebook_gen)
    (nl dim b d nn : Nat) (u : Nat → Nat) :
    ((∃ i, index.make m cb nl dim b d nn u = Except.ok i) ↔
      (4 ≤ b ∧ b ≤ 8 ∧
        b * (if d = 0 then calculate_pq_dim dim else d) % 8 = 0)) ∧
    (¬(4 ≤ b ∧ b ≤ 8) →
      index.make m cb nl dim b d nn u = Except.error (raftError.pqBitsRange b)) ∧
    ((4 ≤ b ∧ b ≤ 8) → b * (if d = 0 then calculate_pq_dim dim else d) % 8 ≠ 0 →
      index.make m cb nl dim b d nn u =
        Except.error (raftError.pqBitsDimMultiple b
          (if d = 0 then calculate_pq_dim dim else d))) ∧
    index.make 0 codebook_gen.PER_SUBSPACE 8 128 5 3 0 u =
      Except.error (raftError.pqBitsDimMultiple 5 3) ∧
    (∃ i, index.make 0 codebook_gen.PER_SUBSPACE 8 128 8 64 0 u = Except.ok i) := by
  refine ⟨⟨?_, ?_⟩, ?_, ?_, ?_, ?_⟩
  · rintro ⟨i, hi⟩
    obtain ⟨h1, h2, h3, -⟩ := make_ok_elim hi
    exact ⟨h1, h2, h3⟩
  · rintro ⟨h1, h2, h3⟩
    exact ⟨_, make_ok m cb nl dim b d nn u h1 h2 h3⟩
  · intro h
    exact make_error_range m cb nl dim b d nn u h
  · intro h1 h2
    exact make_error_mult m cb nl dim b d nn u h1 h2
  · exact make_error_mult 0 codebook_gen.PER_SUBSPACE 8 128 5 3 0 u
      (by omega) (by decide)
  · exact ⟨_, make_ok 0 codebook_gen.PER_SUBSPACE 8 128 8 64 0 u
      (by omega) (by omega) (by decide)⟩

/-- Claim C2 witness: the validation characterisation instantiated at concrete
arguments; the out-of-range branch applied at `pq_bits = 3`. -/
theorem construction_validation_witness :
    index.make 0 codebook_gen.PER_SUBSPACE 8 128 3 64 0 u0 =
      Except.error (raftError.pqBitsRange 3) ∧
    index.make 0 codebook_gen.PER_SUBSPACE 8 128 5 3 0 u0 =
      Except.error (raftError.pqBitsDimMultiple 5 3) :=
  ⟨(construction_validation 0 codebook_gen.PER_SUBSPACE 8 128 3 64 0 u0).2.1
      (by decide),
   (construction_validation 0 codebook_gen.PER_SUBSPACE 8 128 5 3 0 u0).2.2.2.1⟩

/-- Claim C3: for every index in a valid state and every `n`, a successful
`allocate n` leaves `size() = n`, `indices.extent(0) = n`, `pq_dataset`
with shape `[n, pq_dim * pq_bits / 8]`, the other five arrays unchanged
(in particular `list_offsets.extent(0)` stays `n_lists + 1`), and the
state valid again, so the same holds no matter how many times `allocate`
is called. -/
theorem allocate_postconditions (i : index) (n : Nat) (u : Nat → Nat)
    (h : i.wf) :
    (i.allocate n true true u).err = none ∧
    (i.allocate n true true u).state.size = n ∧
    (i.allocate n true true u).state.indices.ext0 = n ∧
    (i.allocate n true true u).state.pq_dataset.ext0 = n ∧
    (i.allocate n true true u).state.pq_dataset.ext1 =
      i.pq_dim * i.pq_bits % U32 / 8 ∧
    (i.allocate n true true u).state.pq_centers = i.pq_centers ∧
    (i.allocate n true true u).state.rotation_matrix = i.rotation_matrix ∧
    (i.allocate n true true u).state.list_offsets = i.list_offsets ∧
    (i.allocate n true true u).state.centers = i.centers ∧
    (i.allocate n true true u).state.centers_rot = i.centers_rot ∧
    (i.allocate n true true u).state.list_offsets.ext0 = (i.n_lists + 1) % U32 ∧
    (i.allocate n true true u).state.wf := by
  obtain ⟨h1, h2, h3, h4, h5, h6, h7⟩ := h
  rw [allocate_success i n u h1 h2 h3]
  exact ⟨rfl, rfl, rfl, rfl, h6, rfl, rfl, rfl, rfl, rfl, h7,
    h1, h2, h3, h4, rfl, h6, h7⟩

/-- Claim C3 witness: the allocate postconditions at the concretely constructed
index `i0` with `n = 5`. -/
theorem allocate_postconditions_witness :
    i0.wf ∧ (i0.allocate 5 true true u0).state.size = 5 ∧
    (i0.allocate 5 true true u0).state.list_offsets.ext0 = (i0.n_lists + 1) % U32 :=
  ⟨i0_wf, (allocate_postconditions i0 5 u0 i0_wf).2.1,
    (allocate_postconditions i0 5 u0 i0_wf).2.2.2.2.2.2.2.2.2.2.1⟩

/-- Claim C4 counterexample: `allocate` is not atomic.  Starting from the
validly constructed, empty index `i0`, if the second of the two device
allocations fails, the error propagates while `pq_dataset` has already
been replaced with a length-1 buffer and `indices` still has length 0:
the index is left with mismatched lengths, contradicting the claim that
no execution of `allocate` leaves `pq_dataset` and `indices` with
`pq_dataset.extent(0) ≠ indices.extent(0)`. -/
theorem allocate_second_failure_mismatch :
    index.make 0 codebook_gen.PER_SUBSPACE 8 128 8 64 0 u0 = Except.ok i0 ∧
    (i0.allocate 1 true false u0).err = some raftError.allocationFailure ∧
    (i0.allocate 1 true false u0).state.pq_dataset.ext0 = 1 ∧
    (i0.allocate 1 true false u0).state.indices.ext0 = 0 ∧
    (i0.allocate 1 true false u0).state.pq_dataset.ext0 ≠
      (i0.allocate 1 true false u0).state.indices.ext0 :=
  ⟨rfl, rfl, rfl, rfl, by decide⟩

/-- Claim C4 amended: a failure of the first allocation of `allocate n` leaves
the index in its prior state, but a failure of the second allocation
leaves `pq_dataset` at the new length `n` with `indices` untouched (so
the lengths can mismatch); structural validation inside `allocate` never
fails for an index in a valid state, so a fully successful `allocate`
reports no error. -/
theorem allocate_failure_modes (i : index) (n : Nat) (u : Nat → Nat)
    (h : i.wf) :
    (∀ b2 : Bool, (i.allocate n false b2 u).state = i ∧
      (i.allocate n false b2 u).err = some raftError.allocationFailure) ∧
    ((i.allocate n true false u).err = some raftError.allocationFailure ∧
      (i.allocate n true false u).state.pq_dataset.ext0 = n ∧
      (i.allocate n true false u).state.indices = i.indices) ∧
    (i.allocate n true true u).err = none := by
  obtain ⟨h1, h2, h3, -⟩ := h
  refine ⟨fun b2 => ⟨?_, ?_⟩, ⟨?_, ?_, ?_⟩, ?_⟩
  · rw [allocate_ok1_false]
  · rw [allocate_ok1_false]
  · rw [allocate_ok2_false]
  · rw [allocate_ok2_false]
  · rw [allocate_ok2_false]
  · rw [allocate_success i n u h1 h2 h3]

/-- Claim C4 amended witness: the failure modes at the concrete index `i0`
with `n = 1`. -/
theorem allocate_failure_modes_witness :
    i0.wf ∧ (i0.allocate 1 false true u0).state = i0 ∧
    (i0.allocate 1 true false u0).state.pq_dataset.ext0 = 1 ∧
    (i0.allocate 1 true true u0).err = none :=
  ⟨i0_wf, ((allocate_failure_modes i0 1 u0 i0_wf).1 true).1,
    (allocate_failure_modes i0 1 u0 i0_wf).2.1.2.1,
    (allocate_failure_modes i0 1 u0 i0_wf).2.2⟩

/-- Claim C5 counterexample: construction (a mutating operation) does not make
the final entry of `list_offsets` equal to `size()`.  The buffers are
allocated uninitialized; when the freshly allocated device memory
happens to hold ones, the constructed index `i1` has
`list_offsets[n_lists] = 1` while `size() = 0`. -/
theorem list_offsets_uninitialized_after_construction :
    index.make 0 codebook_gen.PER_SUBSPACE 8 128 8 64 0 u1 = Except.ok i1 ∧
    i1.list_offsets.ext0 = 9 ∧
    i1.size = 0 ∧
    i1.list_offsets.data (i1.list_offsets.ext0 - 1) = 1 ∧
    i1.list_offsets.data (i1.list_offsets.ext0 - 1) ≠ i1.size :=
  ⟨rfl, rfl, rfl, rfl, by decide⟩

/-- Claim C5 amended: after construction and after every successful `allocate`,
`list_offsets.extent(0) = n_lists + 1` and
`size() = indices.extent(0) = pq_dataset.extent(0)`; the final entry of
`list_offsets` is uninitialized memory and is only given a meaning when
an external collaborator populates the index. -/
theorem size_coupling_after_mutation (m : Nat) (cb : codebook_gen)
    (nl dim b d nn : Nat) (u : Nat → Nat) (i : index)
    (hmk : index.make m cb nl dim b d nn u = Except.ok i) :
    (i.size = i.indices.ext0 ∧ i.indices.ext0 = i.pq_dataset.ext0 ∧
      i.list_offsets.ext0 = (i.n_lists + 1) % U32) ∧
    ∀ (j : index) (n : Nat) (v : Nat → Nat), j.wf →
      ((j.allocate n true true v).err = none ∧
        (j.allocate n true true v).state.size =
          (j.allocate n true true v).state.indices.ext0 ∧
        (j.allocate n true true v).state.indices.ext0 =
          (j.allocate n true true v).state.pq_dataset.ext0 ∧
        (j.allocate n true true v).state.list_offsets.ext0 =
          ((j.allocate n true true v).state.n_lists + 1) % U32) := by
  constructor
  · obtain ⟨-, -, -, -, h5, -, h7⟩ := make_wf hmk
    exact ⟨rfl, h5, h7⟩
  · intro j n v hj
    obtain ⟨h1, h2, h3, h4, h5, h6, h7⟩ := hj
    rw [allocate_success j n v h1 h2 h3]
    exact ⟨rfl, rfl, rfl, h7⟩

/-- Claim C5 amended witness: the size-coupling relations at the concrete
construction producing `i0` and a concrete allocate on it. -/
theorem size_coupling_after_mutation_witness :
    (i0.size = i0.indices.ext0 ∧ i0.indices.ext0 = i0.pq_dataset.ext0 ∧
      i0.list_offsets.ext0 = (i0.n_lists + 1) % U32) ∧
    (i0.allocate 3 true true u0).state.indices.ext0 =
      (i0.allocate 3 true true u0).state.pq_dataset.ext0 :=
  ⟨(size_coupling_after_mutation 0 codebook_gen.PER_SUBSPACE 8 128 8 64 0 u0 i0
      make_i0).1,
   ((size_coupling_after_mutation 0 codebook_gen.PER_SUBSPACE 8 128 8 64 0 u0 i0
      make_i0).2 i0 3 u0 i0_wf).2.2.1⟩

/-- Claim C6: for every successfully constructed index, `pq_centers` has shape
`[pq_dim, pq_book_size, pq_len]` under `PER_SUBSPACE` and
`[n_lists, pq_book_size, pq_len]` under `PER_CLUSTER` (two constructions
identical except for the codebook kind produce exactly these two
shapes), any other codebook-mode value hits the defensive unreachable
branch, and for the closed enumeration that branch can never be taken. -/
theorem pq_centers_shape_selection (m nl dim b d nn : Nat) (u : Nat → Nat)
    (i j : index)
    (h1 : index.make m codebook_gen.PER_SUBSPACE nl dim b d nn u = Except.ok i)
    (h2 : index.make m codebook_gen.PER_CLUSTER nl dim b d nn u = Except.ok j) :
    i.pq_centers = { ext0 := i.pq_dim, ext1 := i.pq_book_size, ext2 := i.pq_len } ∧
    j.pq_centers = { ext0 := j.n_lists, ext1 := j.pq_book_size, ext2 := j.pq_len } ∧
    i.pq_dim = j.pq_dim ∧ i.pq_book_size = j.pq_book_size ∧ i.pq_len = j.pq_len ∧
    (∀ mode dpq pbs pql nls : Nat, mode ≠ 0 → mode ≠ 1 →
      make_pq_centers_extents_raw mode dpq pbs pql nls =
        Except.error raftError.unreachableCodebookMode) ∧
    (∀ (cb : codebook_gen) (dpq pbs pql nls : Nat),
      make_pq_centers_extents_raw cb.toNat dpq pbs pql nls ≠
        Except.error raftError.unreachableCodebookMode) := by
  obtain ⟨-, -, -, hi⟩ := make_ok_elim h1
  obtain ⟨-, -, -, hj⟩ := make_ok_elim h2
  subst hi; subst hj
  refine ⟨rfl, rfl, rfl, rfl, rfl, ?_, ?_⟩
  · intro mode dpq pbs pql nls hm0 hm1
    unfold make_pq_centers_extents_raw
    rw [if_neg hm0, if_neg hm1]
  · intro cb dpq pbs pql nls
    cases cb <;> simp [make_pq_centers_extents_raw, codebook_gen.toNat]

/-- Claim C6 witness: the shape selection at two concrete constructions that
differ only in the codebook kind. -/
theorem pq_centers_shape_selection_witness :
    i0.pq_centers = { ext0 := i0.pq_dim, ext1 := i0.pq_book_size, ext2 := i0.pq_len } ∧
    make_pq_centers_extents_raw 2 64 256 2 8 =
      Except.error raftError.unreachableCodebookMode :=
  ⟨(pq_centers_shape_selection 0 8 128 8 64 0 u0 i0
      (index.fresh 0 codebook_gen.PER_CLUSTER 8 128 8 64 0 u0) make_i0
      (make_ok 0 codebook_gen.PER_CLUSTER 8 128 8 64 0 u0 (by decide) (by decide)
        (by decide))).1,
   (pq_centers_shape_selection 0 8 128 8 64 0 u0 i0
      (index.fresh 0 codebook_gen.PER_CLUSTER 8 128 8 64 0 u0) make_i0
      (make_ok 0 codebook_gen.PER_CLUSTER 8 128 8 64 0 u0 (by decide) (by decide)
        (by decide))).2.2.2.2.2.1 2 64 256 2 8 (by decide) (by decide)⟩

/-- Claim C7: the derived-dimension getters are the pure functions
`dim_ext = round_up(dim + 1, 8)`, `pq_len = ceil_div(dim, pq_dim)`,
`rot_dim = pq_len * pq_dim` and `pq_book_size = 1 <<< pq_bits` (all in
uint32 arithmetic); in particular the construction with `n_lists = 8`,
`pq_bits = 8`, `pq_dim = 0`, `dim = 128` derives `pq_dim = 64`,
`pq_book_size = 256`, `dim_ext = 136`, `pq_len = 2`, `rot_dim = 128`. -/
theorem derived_dimension_getters (u : Nat → Nat) (i : index)
    (h : index.make 0 codebook_gen.PER_SUBSPACE 8 128 8 0 0 u = Except.ok i) :
    (∀ j : index,
      j.dim_ext = round_up_safe ((j.dim + 1) % U32) 8 ∧
      j.pq_len = div_rounding_up j.dim j.pq_dim ∧
      j.rot_dim = j.pq_len * j.pq_dim % U32 ∧
      j.pq_book_size = 2 ^ j.pq_bits) ∧
    i.pq_dim = 64 ∧ i.pq_book_size = 256 ∧ i.dim_ext = 136 ∧
    i.pq_len = 2 ∧ i.rot_dim = 128 := by
  obtain ⟨-, -, -, hi⟩ := make_ok_elim h
  subst hi
  have hdim : (index.fresh 0 codebook_gen.PER_SUBSPACE 8 128 8 0 0 u).dim = 128 := rfl
  have hpq : (index.fresh 0 codebook_gen.PER_SUBSPACE 8 128 8 0 0 u).pq_dim = 64 := rfl
  have hb : (index.fresh 0 codebook_gen.PER_SUBSPACE 8 128 8 0 0 u).pq_bits = 8 := rfl
  refine ⟨fun j => ⟨rfl, rfl, rfl, rfl⟩, hpq, ?_, ?_, ?_, ?_⟩ <;>
    simp [index.pq_book_size, index.dim_ext, index.pq_len, index.rot_dim,
      hdim, hpq, hb, round_up_safe, div_rounding_up, U32]

/-- Claim C7 witness: the getters evaluated on the concretely constructed index
of the claim scenario. -/
theorem derived_dimension_getters_witness :
    i0.pq_dim = 64 ∧ i0.pq_book_size = 256 ∧ i0.dim_ext = 136 ∧
    i0.pq_len = 2 ∧ i0.rot_dim = 128 :=
  (derived_dimension_getters u0 i0 rfl).2

/-- Claim C8 counterexample: a validly constructed index for which
`rot_dim < dim` and `rot_dim % pq_dim ≠ 0`.  With `dim = 2^32 - 1` and
`pq_dim = 2^32 - 2` (accepted by `check_consistency`, since
`pq_bits = 8` makes the product a multiple of 8), `pq_len = 2` and the
uint32 product `pq_len * pq_dim` wraps to `2^32 - 4`, which is smaller
than `dim` and not a multiple of `pq_dim`. -/
theorem rot_dim_uint32_overflow :
    index.make 0 codebook_gen.PER_SUBSPACE 1 4294967295 8 4294967294 0 u0 =
      Except.ok iBig ∧
    iBig.dim = 4294967295 ∧ iBig.pq_dim = 4294967294 ∧
    iBig.rot_dim = 4294967292 ∧
    iBig.rot_dim < iBig.dim ∧ iBig.rot_dim % iBig.pq_dim ≠ 0 :=
  ⟨rfl, rfl, rfl, rfl, by decide, by decide⟩

/-- Claim C8 amended: for every index in a valid (constructed) state,
`rot_dim % pq_dim = 0` and `rot_dim ≥ dim` hold whenever the uint32
product `pq_len * pq_dim` does not wrap (`pq_len * pq_dim < 2^32`); the
relations can fail only in the wrapped regime exhibited by the
counterexample. -/
theorem rot_dim_relations (i : index) (h : i.wf)
    (hno : i.pq_len * i.pq_dim < U32) :
    i.rot_dim % i.pq_dim = 0 ∧ i.dim ≤ i.rot_dim := by
  obtain ⟨-, -, -, h4, -⟩ := h
  have hrot : i.rot_dim = i.pq_len * i.pq_dim := Nat.mod_eq_of_lt hno
  constructor
  · rw [hrot]; exact Nat.mul_mod_left _ _
  · rw [hrot]; exact le_ceil_mul i.dim i.pq_dim h4

/-- Claim C8 amended witness: the relations at the concrete index `i0`, whose
product `pq_len * pq_dim = 128` does not wrap. -/
theorem rot_dim_relations_witness :
    i0.wf ∧ i0.pq_len * i0.pq_dim < U32 ∧
    i0.rot_dim % i0.pq_dim = 0 ∧ i0.dim ≤ i0.rot_dim :=
  ⟨i0_wf, by decide, rot_dim_relations i0 i0_wf (by decide)⟩

/-- Claim C9: constructing an aligned (padded-layout) matrix view from a base
pointer that is not a multiple of the fixed 128-byte alignment is a
precondition failure raised at construction, before any element of the
underlying memory is read or written (the factory never touches the
memory at all); for every 128-byte-aligned pointer the construction
succeeds and wraps exactly that pointer with the requested extents. -/
theorem aligned_matrix_view_alignment (ptr r c : Nat) :
    (ptr % 128 = 0 →
      make_device_aligned_matrix_view ptr r c =
        Except.ok { ptr := ptr, ext0 := r, ext1 := c }) ∧
    (ptr % 128 ≠ 0 →
      make_device_aligned_matrix_view ptr r c =
        Except.error (raftError.misalignedPointer ptr)) := by
  unfold make_device_aligned_matrix_view alignTo ALIGNMENT
  constructor
  · intro h
    rw [if_pos (by omega)]
  · intro h
    rw [if_neg (by omega)]

/-- Claim C9 witness: a 128-byte-aligned pointer is accepted and a misaligned
one rejected, at concrete addresses. -/
theorem aligned_matrix_view_alignment_witness :
    make_device_aligned_matrix_view 256 2 3 =
      Except.ok { ptr := 256, ext0 := 2, ext1 := 3 } ∧
    make_device_aligned_matrix_view 100 2 3 =
      Except.error (raftError.misalignedPointer 100) :=
  ⟨(aligned_matrix_view_alignment 256 2 3).1 (by decide),
   (aligned_matrix_view_alignment 100 2 3).2 (by decide)⟩

/-- Claim C10: `calculate_pq_dim dim` is at least 1 for every uint32 input
(including `dim = 0` and `dim < 32`) and is always a positive multiple
of 32 or a power of two; consequently an auto-derived `pq_dim` is never
zero, so the division in `pq_len() = ceil_div(dim, pq_dim)` is
well-defined for every index constructed with `pq_dim = 0`. -/
theorem calculate_pq_dim_never_zero (dim : Nat) (hdim : dim < U32) :
    1 ≤ calculate_pq_dim dim ∧
    ((0 < calculate_pq_dim dim ∧ 32 ∣ calculate_pq_dim dim) ∨
      ∃ k, calculate_pq_dim dim = 2 ^ k) ∧
    (∀ (m : Nat) (cb : codebook_gen) (nl b nn : Nat) (u : Nat → Nat) (i : index),
      index.make m cb nl dim b 0 nn u = Except.ok i → 1 ≤ i.pq_dim) := by
  refine ⟨calculate_pq_dim_pos dim, calculate_pq_dim_shape dim, ?_⟩
  intro m cb nl b nn u i hi
  obtain ⟨-, -, -, hfresh⟩ := make_ok_elim hi
  subst hfresh
  rw [fresh_pq_dim, if_pos rfl]
  exact calculate_pq_dim_pos dim

/-- Claim C10 witness: positivity of the derived `pq_dim` at `dim = 0`, both
for the heuristic itself and through the concrete construction `iZero`. -/
theorem calculate_pq_dim_never_zero_witness :
    (0 : Nat) < U32 ∧ 1 ≤ calculate_pq_dim 0 ∧ 1 ≤ iZero.pq_dim :=
  ⟨by decide, (calculate_pq_dim_never_zero 0 (by decide)).1,
   (calculate_pq_dim_never_zero 0 (by decide)).2.2 0 codebook_gen.PER_SUBSPACE
     8 8 0 u0 iZero rfl⟩

end raft
